import Mathlib

/-!
Shallow embedding of the Omi Python SDK button-recording subsystem
(omi/button.py, omi/bluetooth.py, examples/button_recording.py).

Timestamps from time.time are modelled as rationals.  Side-effecting
callback invocations are modelled as an emitted event trace; whether a
given optional callback is registered is carried as a boolean flag on
the handler state.  Byte strings are lists of naturals.
-/

/-- ButtonState from button.py: wire values IDLE = 0,
LONG_PRESS_START = 3, LONG_PRESS_RELEASE = 5. -/
inductive ButtonState where
  | IDLE
  | LONG_PRESS_START
  | LONG_PRESS_RELEASE
deriving DecidableEq

/-- The IntEnum lookup ButtonState(state_value): some state for the three
declared wire values, none (ValueError) otherwise. -/
def ButtonState.ofValue (v : Nat) : Option ButtonState :=
  if v = 0 then some ButtonState.IDLE
  else if v = 3 then some ButtonState.LONG_PRESS_START
  else if v = 5 then some ButtonState.LONG_PRESS_RELEASE
  else none

/-- RecordingState from button.py: IDLE = 0, RECORDING = 1. -/
inductive RecordingState where
  | IDLE
  | RECORDING
deriving DecidableEq

/-- The flipped recording state, used to state toggle behaviour. -/
def RecordingState.flip : RecordingState → RecordingState
  | RecordingState.IDLE => RecordingState.RECORDING
  | RecordingState.RECORDING => RecordingState.IDLE

/-- Observable side effects of the button handler: raw-event observer
invocation, the two recording callbacks, the enhanced haptic callback
(carrying its pattern string) and the basic haptic callback (carrying
its level). -/
inductive Event where
  | onButtonEvent (s : ButtonState)
  | recordingStart
  | recordingStop
  | enhancedHaptic (pattern : String)
  | haptic (level : Nat)
deriving DecidableEq

/-- struct.unpack with format <I applied to data[:4]: unsigned
little-endian 32-bit decode of the first four bytes.  Only called on
inputs of length at least 4; shorter inputs are given the junk value 0
that no caller ever observes. -/
def decodeLE4 (data : List Nat) : Nat :=
  match data with
  | b0 :: b1 :: b2 :: b3 :: _ => b0 + b1 * 256 + b2 * 65536 + b3 * 16777216
  | _ => 0

/-- Mutable state of ButtonHandler (button.py).  The two duplicate-filter
attributes are created lazily by process_button_data in the source
(hasattr guard), so they are Options that start out none.  The five
has_* flags record which optional callbacks were registered. -/
structure ButtonHandler where
  recording_state : RecordingState
  toggle_count : Nat
  last_start_time : Option ℚ
  last_release_time : Option ℚ
  fallback_enabled : Bool
  last_button_state : Option ButtonState
  last_button_time : Option ℚ
  has_on_recording_start : Bool
  has_on_recording_stop : Bool
  has_on_button_event : Bool
  has_haptic_callback : Bool
  has_enhanced_haptic_callback : Bool
deriving DecidableEq

/-- ButtonHandler.__init__: recording_state IDLE, toggle count 0, no
workaround timestamps, fallback enabled, duplicate-filter attributes not
yet created, enhanced haptic callback unset. -/
def ButtonHandler.init (onStart onStop onEvent haptic : Bool) : ButtonHandler :=
  { recording_state := RecordingState.IDLE
    toggle_count := 0
    last_start_time := none
    last_release_time := none
    fallback_enabled := true
    last_button_state := none
    last_button_time := none
    has_on_recording_start := onStart
    has_on_recording_stop := onStop
    has_on_button_event := onEvent
    has_haptic_callback := haptic
    has_enhanced_haptic_callback := false }

/-- ButtonHandler._toggle_recording: flips the state; increments the
counter only in the IDLE branch; dispatches the enhanced haptic pattern
when that callback is set, else the basic level-1 haptic; then invokes
the matching recording callback. -/
def ButtonHandler.toggle_recording (h : ButtonHandler) :
    ButtonHandler × List Event :=
  if h.recording_state = RecordingState.IDLE then
    ({ h with recording_state := RecordingState.RECORDING,
              toggle_count := h.toggle_count + 1 },
     (if h.has_enhanced_haptic_callback then [Event.enhancedHaptic "start"]
      else if h.has_haptic_callback then [Event.haptic 1] else [])
       ++ (if h.has_on_recording_start then [Event.recordingStart] else []))
  else
    ({ h with recording_state := RecordingState.IDLE },
     (if h.has_enhanced_haptic_callback then [Event.enhancedHaptic "stop"]
      else if h.has_haptic_callback then [Event.haptic 1] else [])
       ++ (if h.has_on_recording_stop then [Event.recordingStop] else []))

/-- ButtonHandler._should_trigger_fallback_toggle: true when no START
was ever seen, or when both timestamps exist and the release came more
than 3 seconds after the last start. -/
def ButtonHandler.should_trigger_fallback_toggle (h : ButtonHandler) : Bool :=
  match h.last_start_time with
  | none => true
  | some st =>
    match h.last_release_time with
    | some rt => decide (rt - st > 3)
    | none => false

/-- The rapid-duplicate guard in process_button_data: both lazily
created attributes exist, the incoming state equals the stored one, and
less than 0.1 seconds elapsed since it was stored. -/
def ButtonHandler.rapid_duplicate (h : ButtonHandler) (t : ℚ)
    (bs : ButtonState) : Bool :=
  match h.last_button_state, h.last_button_time with
  | some lbs, some lbt => decide (lbs = bs) && decide (t - lbt < 1 / 10)
  | _, _ => false

/-- The raw-event observer invocation in process_button_data: one
onButtonEvent event when the callback is registered. -/
def ButtonHandler.observer_evs (h : ButtonHandler) (bs : ButtonState) :
    List Event :=
  if h.has_on_button_event then [Event.onButtonEvent bs] else []

/-- The tail of process_button_data after the duplicate filter accepted
the event: h1 already stores the new last_button_state/time.  START
records its timestamp and toggles; RELEASE records its timestamp and,
when fallback is enabled and applies, emits the level-2 haptic and
toggles; IDLE only fires the observer. -/
def ButtonHandler.apply_event (h1 : ButtonHandler) (t : ℚ)
    (bs : ButtonState) : ButtonHandler × List Event × Option ButtonState :=
  match bs with
  | ButtonState.IDLE => (h1, h1.observer_evs bs, some bs)
  | ButtonState.LONG_PRESS_START =>
      ((ButtonHandler.toggle_recording
          { h1 with last_start_time := some t }).1,
       h1.observer_evs bs
         ++ (ButtonHandler.toggle_recording
              { h1 with last_start_time := some t }).2,
       some bs)
  | ButtonState.LONG_PRESS_RELEASE =>
      if h1.fallback_enabled
          && ButtonHandler.should_trigger_fallback_toggle
               { h1 with last_release_time := some t } then
        ((ButtonHandler.toggle_recording
            { h1 with last_release_time := some t }).1,
         h1.observer_evs bs
           ++ (if h1.has_haptic_callback then [Event.haptic 2] else [])
           ++ (ButtonHandler.toggle_recording
                { h1 with last_release_time := some t }).2,
         some bs)
      else
        ({ h1 with last_release_time := some t }, h1.observer_evs bs, some bs)

/-- ButtonHandler.process_button_data: rejects inputs shorter than 4
bytes, decodes the first 4 bytes little-endian, rejects unrecognized
values, returns the state early (no side effects, no field updates) on
a rapid duplicate, otherwise stores the duplicate-filter fields, fires
the observer and applies the per-state policy.  Returns the new handler
state, the emitted events and the parsed state. -/
def ButtonHandler.process_button_data (h : ButtonHandler) (t : ℚ)
    (data : List Nat) : ButtonHandler × List Event × Option ButtonState :=
  if data.length < 4 then (h, [], none)
  else
    match ButtonState.ofValue (decodeLE4 data) with
    | none => (h, [], none)
    | some bs =>
      if h.rapid_duplicate t bs then (h, [], some bs)
      else
        ButtonHandler.apply_event
          { h with last_button_state := some bs, last_button_time := some t }
          t bs

/-- ButtonHandler.reset: recording_state to IDLE, counter to 0, both
firmware-workaround timestamps to none; every other field untouched. -/
def ButtonHandler.reset (h : ButtonHandler) : ButtonHandler :=
  { h with recording_state := RecordingState.IDLE
           toggle_count := 0
           last_start_time := none
           last_release_time := none }

/-- parse_button_state (module-level utility in button.py): reverses the
first four bytes and decodes them as an unsigned big-endian 32-bit
integer via a fold, then looks the value up in ButtonState. -/
def parse_button_state (data : List Nat) : Option ButtonState :=
  if data.length < 4 then none
  else
    ButtonState.ofValue
      (((data.take 4).reverse).foldl (fun acc b => acc * 256 + b) 0)

/-- The trigger condition in handle_button_data (bluetooth.py) for
starting an audio pause cycle: len(data) greater than 0 and data[0]
equal to 3.  The full 4-byte decode is not consulted on this path. -/
def handle_button_data_pause (data : List Nat) : Bool :=
  match data with
  | [] => false
  | b :: _ => decide (b = 3)

/-- play_enhanced_haptic (bluetooth.py), as the list of byte strings
written to the speaker characteristic: a single byte 2 for pattern
start, a single byte 3 for stop, a single byte 1 otherwise. -/
def play_enhanced_haptic (pattern_type : String) : List (List Nat) :=
  if pattern_type = "start" then [[2]]
  else if pattern_type = "stop" then [[3]]
  else [[1]]

/-- Recognizer for haptic dispatches in an event trace. -/
def Event.isHaptic : Event → Bool
  | Event.enhancedHaptic _ => true
  | Event.haptic _ => true
  | _ => false

/-- State of RecordingSession (examples/button_recording.py) relevant to
audio ingress: the recording flag, the cumulative decoded-byte counter
and the queue of forwarded PCM chunks. -/
structure RecordingSession where
  is_recording : Bool
  audio_bytes_received : Nat
  audio_queue : List (List Nat)
deriving DecidableEq

/-- RecordingSession.handle_audio_data: decode only while recording,
and only a truthy (non-empty) decode grows the byte counter and is
forwarded to the queue.  The codec decode_packet is external and passed
in as a function. -/
def RecordingSession.handle_audio_data (decode_packet : List Nat → List Nat)
    (s : RecordingSession) (data : List Nat) : RecordingSession :=
  if s.is_recording then
    if (decode_packet data).isEmpty then s
    else
      { s with
          audio_bytes_received :=
            s.audio_bytes_received + (decode_packet data).length
          audio_queue := s.audio_queue ++ [decode_packet data] }
  else s

/-- Whether a RELEASE processed at time t takes the firmware-workaround
fallback branch: fallback enabled, and should_trigger evaluated after
last_release_time was just set to t. -/
def ButtonHandler.release_fallback_fires (h : ButtonHandler) (t : ℚ) : Bool :=
  h.fallback_enabled
    && ButtonHandler.should_trigger_fallback_toggle
         { h with last_release_time := some t }

/-- Folding a sequence of LONG_PRESS_START notifications, one per listed
timestamp, through process_button_data. -/
def ButtonHandler.processStarts (h : ButtonHandler) : List ℚ → ButtonHandler
  | [] => h
  | t :: ts =>
      ButtonHandler.processStarts (h.process_button_data t [3, 0, 0, 0]).1 ts

/-- Consecutive timestamps at least 0.1 seconds apart, so none of them
is discarded by the rapid-duplicate filter. -/
def WellSpaced : List ℚ → Prop
  | [] => True
  | [_] => True
  | t1 :: t2 :: ts => t1 + 1 / 10 ≤ t2 ∧ WellSpaced (t2 :: ts)

/-- The first listed timestamp is at least 0.1 seconds after whatever
notification time the handler last stored. -/
def GapOK (h : ButtonHandler) : List ℚ → Prop
  | [] => True
  | t :: _ =>
    match h.last_button_time with
    | none => True
    | some lbt => lbt + 1 / 10 ≤ t

section ShapeLemmas

/-- Inputs shorter than 4 bytes are rejected outright. -/
lemma process_eq_short (h : ButtonHandler) (t : ℚ) (data : List Nat)
    (hl : data.length < 4) : h.process_button_data t data = (h, [], none) := by
  simp [ButtonHandler.process_button_data, hl]

/-- Unrecognized 4-byte values are rejected with no effect. -/
lemma process_eq_unrecognized (h : ButtonHandler) (t : ℚ) (data : List Nat)
    (hl : ¬ data.length < 4) (hv : ButtonState.ofValue (decodeLE4 data) = none) :
    h.process_button_data t data = (h, [], none) := by
  simp [ButtonHandler.process_button_data, hl, hv]

/-- A rapid duplicate returns the parsed state but changes nothing. -/
lemma process_eq_dup (h : ButtonHandler) (t : ℚ) (data : List Nat)
    (bs : ButtonState) (hl : ¬ data.length < 4)
    (hv : ButtonState.ofValue (decodeLE4 data) = some bs)
    (hd : h.rapid_duplicate t bs = true) :
    h.process_button_data t data = (h, [], some bs) := by
  simp [ButtonHandler.process_button_data, hl, hv, hd]

/-- An accepted event stores the duplicate-filter fields and takes the
per-state branch. -/
lemma process_eq_accepted (h : ButtonHandler) (t : ℚ) (data : List Nat)
    (bs : ButtonState) (hl : ¬ data.length < 4)
    (hv : ButtonState.ofValue (decodeLE4 data) = some bs)
    (hd : h.rapid_duplicate t bs = false) :
    h.process_button_data t data =
      ButtonHandler.apply_event
        { h with last_button_state := some bs, last_button_time := some t }
        t bs := by
  simp [ButtonHandler.process_button_data, hl, hv, hd]

/-- Every branch of apply_event reports the parsed state. -/
lemma apply_event_parsed (h1 : ButtonHandler) (t : ℚ) (bs : ButtonState) :
    (ButtonHandler.apply_event h1 t bs).2.2 = some bs := by
  cases bs
  · rfl
  · rfl
  · simp only [ButtonHandler.apply_event]
    split
    · rfl
    · rfl

/-- A list of length at least 4 splits into four leading bytes. -/
lemma exists_cons4 (data : List Nat) (hl : 4 ≤ data.length) :
    ∃ b0 b1 b2 b3 rest, data = b0 :: b1 :: b2 :: b3 :: rest := by
  match data with
  | b0 :: b1 :: b2 :: b3 :: rest => exact ⟨b0, b1, b2, b3, rest, rfl⟩
  | [] | [_] | [_, _] | [_, _, _] => simp [List.length] at hl

/-- The toggle flips the recording state. -/
lemma toggle_recording_state (h : ButtonHandler) :
    (h.toggle_recording).1.recording_state = h.recording_state.flip := by
  cases hr : h.recording_state <;>
    simp [ButtonHandler.toggle_recording, RecordingState.flip, hr]

/-- The toggle increments the counter only when leaving IDLE. -/
lemma toggle_recording_count (h : ButtonHandler) :
    (h.toggle_recording).1.toggle_count =
      h.toggle_count
        + (if h.recording_state = RecordingState.IDLE then 1 else 0) := by
  cases hr : h.recording_state <;>
    simp [ButtonHandler.toggle_recording, hr]

/-- Flipping twice is the identity. -/
lemma flip_flip (s : RecordingState) : s.flip.flip = s := by
  cases s <;> rfl

end ShapeLemmas

/-- C10: reset sets RecordingState to IDLE, the toggle counter to 0 and
both firmware-workaround timestamps to none, and leaves every other
field — callback registrations, the fallback flag and the two
duplicate-filter fields — unchanged. -/
theorem reset_frame (h : ButtonHandler) :
    (h.reset).recording_state = RecordingState.IDLE
    ∧ (h.reset).toggle_count = 0
    ∧ (h.reset).last_start_time = none
    ∧ (h.reset).last_release_time = none
    ∧ (h.reset).fallback_enabled = h.fallback_enabled
    ∧ (h.reset).last_button_state = h.last_button_state
    ∧ (h.reset).last_button_time = h.last_button_time
    ∧ (h.reset).has_on_recording_start = h.has_on_recording_start
    ∧ (h.reset).has_on_recording_stop = h.has_on_recording_stop
    ∧ (h.reset).has_on_button_event = h.has_on_button_event
    ∧ (h.reset).has_haptic_callback = h.has_haptic_callback
    ∧ (h.reset).has_enhanced_haptic_callback
        = h.has_enhanced_haptic_callback :=
  ⟨rfl, rfl, rfl, rfl, rfl, rfl, rfl, rfl, rfl, rfl, rfl, rfl⟩

/-- C5: inputs shorter than 4 bytes, and 4-or-more-byte inputs whose
first 4 bytes decode outside the recognized set, are rejected with no
state change, no events and no parsed state; bytes past the first four
never influence the decoded value. -/
theorem process_rejects_invalid (h : ButtonHandler) (t : ℚ)
    (data : List Nat) :
    (data.length < 4 → h.process_button_data t data = (h, [], none))
    ∧ (4 ≤ data.length → ButtonState.ofValue (decodeLE4 data) = none →
        h.process_button_data t data = (h, [], none))
    ∧ (∀ extra : List Nat, 4 ≤ data.length →
        decodeLE4 (data ++ extra) = decodeLE4 data) := by
  refine ⟨fun hl => process_eq_short h t data hl,
          fun hl hv => process_eq_unrecognized h t data (by omega) hv,
          fun extra hl => ?_⟩
  obtain ⟨b0, b1, b2, b3, rest, rfl⟩ := exists_cons4 data hl
  rfl

/-- Witness for C5 at concrete inputs: a 2-byte input and the
unrecognized value 7. -/
theorem process_rejects_invalid_witness :
    (ButtonHandler.init true true true true).process_button_data 0 [9, 9]
        = (ButtonHandler.init true true true true, [], none)
    ∧ (ButtonHandler.init true true true true).process_button_data 0
        [7, 0, 0, 0] = (ButtonHandler.init true true true true, [], none)
    ∧ decodeLE4 ([7, 0, 0, 0] ++ [1, 2, 3]) = decodeLE4 [7, 0, 0, 0] :=
  ⟨(process_rejects_invalid _ 0 [9, 9]).1 (by norm_num),
   (process_rejects_invalid _ 0 [7, 0, 0, 0]).2.1 (by norm_num) (by decide),
   (process_rejects_invalid (ButtonHandler.init true true true true) 0
      [7, 0, 0, 0]).2.2 [1, 2, 3] (by norm_num)⟩

/-- C9: on byte lists of length at least 4, the utility
parse_button_state (reverse the first 4 bytes, decode big-endian) agrees
with the little-endian decode used by process_button_data, and with the
state process_button_data itself reports. -/
theorem parse_matches_process (h : ButtonHandler) (t : ℚ) (data : List Nat)
    (hl : 4 ≤ data.length) (hb : ∀ b ∈ data, b < 256) :
    parse_button_state data = ButtonState.ofValue (decodeLE4 data)
    ∧ parse_button_state data = (h.process_button_data t data).2.2 := by
  have h1 : parse_button_state data = ButtonState.ofValue (decodeLE4 data) := by
    obtain ⟨b0, b1, b2, b3, rest, rfl⟩ := exists_cons4 data hl
    have hl' : ¬ (b0 :: b1 :: b2 :: b3 :: rest).length < 4 := by
      simp [List.length]
    simp only [parse_button_state, hl', if_false, decodeLE4, List.take,
      List.reverse_cons, List.reverse_nil, List.nil_append, List.cons_append,
      List.foldl]
    congr 1
    ring
  refine ⟨h1, ?_⟩
  rw [h1]
  rcases hv : ButtonState.ofValue (decodeLE4 data) with _ | bs
  · rw [process_eq_unrecognized h t data (by omega) hv]
  · cases hd : h.rapid_duplicate t bs with
    | false =>
        rw [process_eq_accepted h t data bs (by omega) hv hd,
          apply_event_parsed]
    | true => rw [process_eq_dup h t data bs (by omega) hv hd]

/-- Witness for C9 at the concrete payload 5,0,0,0. -/
theorem parse_matches_process_witness :
    parse_button_state [5, 0, 0, 0]
        = ButtonState.ofValue (decodeLE4 [5, 0, 0, 0])
    ∧ parse_button_state [5, 0, 0, 0]
        = ((ButtonHandler.init true true true true).process_button_data 0
            [5, 0, 0, 0]).2.2 :=
  parse_matches_process (ButtonHandler.init true true true true) 0
    [5, 0, 0, 0] (by norm_num) (by decide)

/-- C6 counterexample: the payload 3,1,0,0 decodes little-endian to 259,
which is not LONG_PRESS_START, yet the audio pause path in
handle_button_data is triggered because its check reads only the first
byte. -/
theorem pause_trigger_cex :
    handle_button_data_pause [3, 1, 0, 0] = true
    ∧ ButtonState.ofValue (decodeLE4 [3, 1, 0, 0])
        ≠ some ButtonState.LONG_PRESS_START := by
  constructor
  · rfl
  · decide

/-- C6 (amended): the pause cycle is triggered exactly when the payload
is nonempty and its first byte equals 3; in particular every payload
whose 4-byte little-endian decode is LONG_PRESS_START does trigger it,
but the full decode is not what is consulted. -/
theorem pause_trigger_policy (data : List Nat) :
    (handle_button_data_pause data = true ↔ data.head? = some 3)
    ∧ (4 ≤ data.length → decodeLE4 data = 3 →
        handle_button_data_pause data = true) := by
  constructor
  · cases data with
    | nil => simp [handle_button_data_pause]
    | cons b rest => simp [handle_button_data_pause]
  · intro hl hv
    obtain ⟨b0, b1, b2, b3, rest, rfl⟩ := exists_cons4 data hl
    simp only [decodeLE4] at hv
    have hb0 : b0 = 3 := by omega
    simp [handle_button_data_pause, hb0]

/-- Witness for C6 at the genuine LONG_PRESS_START payload. -/
theorem pause_trigger_policy_witness :
    handle_button_data_pause [3, 0, 0, 0] = true :=
  (pause_trigger_policy [3, 0, 0, 0]).2 (by norm_num) (by decide)

/-- C7 counterexample: the start cue is the single write of byte 2, not
the byte-1-then-byte-2 sequence the claim describes. -/
theorem haptic_pattern_cex :
    play_enhanced_haptic "start" = [[2]]
    ∧ play_enhanced_haptic "start" ≠ [[1], [2]] := by
  constructor
  · rfl
  · simp [play_enhanced_haptic]

/-- C7 (amended): with the enhanced haptic callback installed, a toggle
dispatches exactly one haptic pattern: the start pattern, written as the
single byte 2, on a toggle to Recording, and the stop pattern, written
as the single byte 3, on a toggle to Idle. -/
theorem haptic_pattern_policy (h : ButtonHandler)
    (he : h.has_enhanced_haptic_callback = true) :
    (h.recording_state = RecordingState.IDLE →
        (h.toggle_recording).2.filter Event.isHaptic
            = [Event.enhancedHaptic "start"]
        ∧ play_enhanced_haptic "start" = [[2]])
    ∧ (h.recording_state = RecordingState.RECORDING →
        (h.toggle_recording).2.filter Event.isHaptic
            = [Event.enhancedHaptic "stop"]
        ∧ play_enhanced_haptic "stop" = [[3]]) := by
  constructor
  · intro hr
    refine ⟨?_, rfl⟩
    cases hs : h.has_on_recording_start <;>
      simp [ButtonHandler.toggle_recording, hr, he, hs, Event.isHaptic]
  · intro hr
    refine ⟨?_, rfl⟩
    cases hs : h.has_on_recording_stop <;>
      simp [ButtonHandler.toggle_recording, hr, he, hs, Event.isHaptic]

/-- Witness for C7: a fresh handler with the enhanced callback
installed, toggled out of IDLE. -/
theorem haptic_pattern_policy_witness :
    (({ ButtonHandler.init true true true true with
          has_enhanced_haptic_callback := true } :
        ButtonHandler).toggle_recording).2.filter Event.isHaptic
        = [Event.enhancedHaptic "start"]
    ∧ play_enhanced_haptic "start" = [[2]] :=
  (haptic_pattern_policy _ rfl).1 rfl

/-- C8: audio frames are decoded only while recording; a frame arriving
while not recording changes nothing for any decoder, an empty decode is
not forwarded, and a non-empty decode is appended to the queue and
counted. -/
theorem audio_gating (decode_packet : List Nat → List Nat)
    (s : RecordingSession) (data : List Nat) :
    (s.is_recording = false →
        RecordingSession.handle_audio_data decode_packet s data = s)
    ∧ (s.is_recording = true → decode_packet data = [] →
        RecordingSession.handle_audio_data decode_packet s data = s)
    ∧ (s.is_recording = true → decode_packet data ≠ [] →
        (RecordingSession.handle_audio_data decode_packet s data).audio_queue
            = s.audio_queue ++ [decode_packet data]
        ∧ (RecordingSession.handle_audio_data decode_packet s
              data).audio_bytes_received
            = s.audio_bytes_received + (decode_packet data).length) := by
  refine ⟨fun hr => ?_, fun hr hd => ?_, fun hr hd => ?_⟩
  · simp [RecordingSession.handle_audio_data, hr]
  · simp [RecordingSession.handle_audio_data, hr, hd]
  · rw [RecordingSession.handle_audio_data]
    simp [hr, List.isEmpty_iff, hd]

/-- Witness for C8: a recording session receiving a frame whose decode
is the two-byte chunk 1,2. -/
theorem audio_gating_witness :
    (RecordingSession.handle_audio_data (fun _ => [1, 2])
        ⟨true, 0, []⟩ [9]).audio_queue = [] ++ [[1, 2]]
    ∧ (RecordingSession.handle_audio_data (fun _ => [1, 2])
        ⟨true, 0, []⟩ [9]).audio_bytes_received = 0 + 2 :=
  (audio_gating (fun _ => [1, 2]) ⟨true, 0, []⟩ [9]).2.2 rfl (by simp)

/-- The toggle does not touch the duplicate-filter timestamp. -/
lemma toggle_recording_preserves (h : ButtonHandler) :
    (h.toggle_recording).1.last_button_time = h.last_button_time := by
  cases hr : h.recording_state <;>
    simp [ButtonHandler.toggle_recording, hr]

/-- A notification at least 0.1 seconds after the stored one is never a
rapid duplicate. -/
lemma rapid_false_of_gap (h : ButtonHandler) (t : ℚ) (ts : List ℚ)
    (hg : GapOK h (t :: ts)) (bs : ButtonState) :
    h.rapid_duplicate t bs = false := by
  rcases hs : h.last_button_state with _ | lbs
  · simp [ButtonHandler.rapid_duplicate, hs]
  · rcases hT : h.last_button_time with _ | lbt
    · simp [ButtonHandler.rapid_duplicate, hs, hT]
    · have hle : lbt + 1 / 10 ≤ t := by
        simpa [GapOK, hT] using hg
      have hnot : ¬ (t - lbt < 1 / 10) := by linarith
      simp only [ButtonHandler.rapid_duplicate, hs, hT]
      rw [Bool.and_eq_false_iff]
      right
      simpa using hnot

/-- Effect of one accepted LONG_PRESS_START notification, written as a
toggle of the handler with its bookkeeping fields updated. -/
lemma process_start_step (h : ButtonHandler) (t : ℚ)
    (hd : h.rapid_duplicate t ButtonState.LONG_PRESS_START = false) :
    (h.process_button_data t [3, 0, 0, 0]).1
      = (ButtonHandler.toggle_recording
          { h with last_button_state := some ButtonState.LONG_PRESS_START,
                   last_button_time := some t,
                   last_start_time := some t }).1 := by
  rw [process_eq_accepted h t [3, 0, 0, 0] ButtonState.LONG_PRESS_START
    (by norm_num) rfl hd]
  rfl

/-- Invariant of a well-spaced run of LONG_PRESS_START notifications:
the state flips once per press and the counter counts only the presses
that leave IDLE. -/
lemma processStarts_spec (ts : List ℚ) : ∀ h : ButtonHandler,
    WellSpaced ts → GapOK h ts →
    ((h.processStarts ts).recording_state =
        if ts.length % 2 = 0 then h.recording_state
        else h.recording_state.flip)
    ∧ ((h.processStarts ts).toggle_count =
        h.toggle_count + (if h.recording_state = RecordingState.IDLE
            then (ts.length + 1) / 2 else ts.length / 2)) := by
  induction ts with
  | nil =>
    intro h _ _
    simp [ButtonHandler.processStarts]
  | cons t ts ih =>
    intro h hw hg
    have hd : h.rapid_duplicate t ButtonState.LONG_PRESS_START = false :=
      rapid_false_of_gap h t ts hg _
    have hPS : h.processStarts (t :: ts)
        = ((h.process_button_data t [3, 0, 0, 0]).1).processStarts ts := rfl
    have hstep := process_start_step h t hd
    have hrec : (h.process_button_data t [3, 0, 0, 0]).1.recording_state
        = h.recording_state.flip := by
      rw [hstep, toggle_recording_state]
    have hcnt : (h.process_button_data t [3, 0, 0, 0]).1.toggle_count
        = h.toggle_count
          + (if h.recording_state = RecordingState.IDLE then 1 else 0) := by
      rw [hstep, toggle_recording_count]
    have hlbt : (h.process_button_data t [3, 0, 0, 0]).1.last_button_time
        = some t := by
      rw [hstep, toggle_recording_preserves]
    have hw' : WellSpaced ts := by
      cases ts with
      | nil => trivial
      | cons t2 ts2 => exact hw.2
    have hg' : GapOK (h.process_button_data t [3, 0, 0, 0]).1 ts := by
      cases ts with
      | nil => trivial
      | cons t2 ts2 =>
        have hle : t + 1 / 10 ≤ t2 := hw.1
        simpa [GapOK, hlbt] using hle
    obtain ⟨ihs, ihc⟩ := ih (h.process_button_data t [3, 0, 0, 0]).1 hw' hg'
    rw [hrec] at ihs
    rw [hcnt, hrec] at ihc
    constructor
    · rw [hPS, ihs]
      by_cases hp : ts.length % 2 = 0
      · have hp1 : (ts.length + 1) % 2 = 1 := by omega
        simp [hp, hp1]
      · have hp0 : (ts.length + 1) % 2 = 0 := by omega
        simp [hp, hp0, flip_flip]
    · rw [hPS, ihc]
      cases hr : h.recording_state
      · simp [hr, RecordingState.flip]
        omega
      · simp [hr, RecordingState.flip]

/-- C3 counterexample: two recognized LONG_PRESS_START events (1 second
apart, from the initial state) produce two transitions — Idle to
Recording and back — yet the toggle counter ends at 1, not the 2 the
claim requires; the Recording-to-Idle transition did not increment it. -/
theorem toggle_count_cex :
    (((ButtonHandler.init true true true true).process_button_data 0
        [3, 0, 0, 0]).1.process_button_data 1 [3, 0, 0, 0]).1.toggle_count = 1
    ∧ (((ButtonHandler.init true true true true).process_button_data 0
        [3, 0, 0, 0]).1.process_button_data 1
          [3, 0, 0, 0]).1.recording_state = RecordingState.IDLE
    ∧ ((ButtonHandler.init true true true true).process_button_data 0
        [3, 0, 0, 0]).1.recording_state = RecordingState.RECORDING := by
  have e1 : ((ButtonHandler.init true true true true).process_button_data 0
      [3, 0, 0, 0]).1.last_button_state
      = some ButtonState.LONG_PRESS_START := rfl
  have e2 : ((ButtonHandler.init true true true true).process_button_data 0
      [3, 0, 0, 0]).1.last_button_time = some (0 : ℚ) := rfl
  have hd : ((ButtonHandler.init true true true true).process_button_data 0
      [3, 0, 0, 0]).1.rapid_duplicate 1 ButtonState.LONG_PRESS_START
      = false := by
    simp only [ButtonHandler.rapid_duplicate, e1, e2]
    rw [Bool.and_eq_false_iff]
    right
    rw [decide_eq_false_iff_not]
    norm_num
  refine ⟨?_, ?_, rfl⟩
  · rw [process_eq_accepted _ 1 [3, 0, 0, 0] ButtonState.LONG_PRESS_START
      (by norm_num) rfl hd]
    rfl
  · rw [process_eq_accepted _ 1 [3, 0, 0, 0] ButtonState.LONG_PRESS_START
      (by norm_num) rfl hd]
    rfl

/-- C3 (amended): the toggle counter increments by 1 exactly on each
Idle-to-Recording transition and not on Recording-to-Idle; hence after N
recognized LONG_PRESS_START events, each accepted by the duplicate
filter because consecutive notifications are at least 0.1 seconds
apart, starting from the initial state, the counter equals the ceiling
of N over 2 and RecordingState is Recording exactly when N is odd. -/
theorem toggle_count_policy (onStart onStop onEvent haptic : Bool)
    (ts : List ℚ) (hw : WellSpaced ts) :
    ((ButtonHandler.init onStart onStop onEvent
        haptic).processStarts ts).recording_state
      = (if ts.length % 2 = 0 then RecordingState.IDLE
         else RecordingState.RECORDING)
    ∧ ((ButtonHandler.init onStart onStop onEvent
        haptic).processStarts ts).toggle_count = (ts.length + 1) / 2 := by
  have hg : GapOK (ButtonHandler.init onStart onStop onEvent haptic) ts := by
    cases ts <;> simp [GapOK, ButtonHandler.init]
  have hmain := processStarts_spec ts
    (ButtonHandler.init onStart onStop onEvent haptic) hw hg
  simpa [ButtonHandler.init, RecordingState.flip] using hmain

/-- Witness for C3 at three presses spaced one second apart: the final
state is Recording and the counter reads 2. -/
theorem toggle_count_policy_witness :
    ((ButtonHandler.init true true true true).processStarts
        [0, 1, 2]).recording_state = RecordingState.RECORDING
    ∧ ((ButtonHandler.init true true true true).processStarts
        [0, 1, 2]).toggle_count = 2 := by
  have hw : WellSpaced [0, 1, 2] := by
    refine ⟨by norm_num, by norm_num, trivial⟩
  simpa using toggle_count_policy true true true true [0, 1, 2] hw

/-- C2 counterexample: a second recognized LONG_PRESS_START payload
arriving 0.05 seconds after an identical one is suppressed by the
100-millisecond duplicate window and does not flip the recording state,
which stays Recording. -/
theorem start_toggle_cex :
    ((ButtonHandler.init true true true true).process_button_data 0
        [3, 0, 0, 0]).1.recording_state = RecordingState.RECORDING
    ∧ (((ButtonHandler.init true true true true).process_button_data 0
        [3, 0, 0, 0]).1.process_button_data (1 / 20)
          [3, 0, 0, 0]).1.recording_state = RecordingState.RECORDING
    ∧ (((ButtonHandler.init true true true true).process_button_data 0
        [3, 0, 0, 0]).1.process_button_data (1 / 20) [3, 0, 0, 0]).2.2
        = some ButtonState.LONG_PRESS_START := by
  have e1 : ((ButtonHandler.init true true true true).process_button_data 0
      [3, 0, 0, 0]).1.last_button_state
      = some ButtonState.LONG_PRESS_START := rfl
  have e2 : ((ButtonHandler.init true true true true).process_button_data 0
      [3, 0, 0, 0]).1.last_button_time = some (0 : ℚ) := rfl
  have hd : ((ButtonHandler.init true true true true).process_button_data 0
      [3, 0, 0, 0]).1.rapid_duplicate (1 / 20) ButtonState.LONG_PRESS_START
      = true := by
    simp only [ButtonHandler.rapid_duplicate, e1, e2, Bool.and_eq_true,
      decide_eq_true_eq]
    norm_num
  refine ⟨rfl, ?_, ?_⟩
  · rw [process_eq_dup _ (1 / 20) [3, 0, 0, 0] ButtonState.LONG_PRESS_START
      (by norm_num) rfl hd]
    rfl
  · rw [process_eq_dup _ (1 / 20) [3, 0, 0, 0] ButtonState.LONG_PRESS_START
      (by norm_num) rfl hd]

/-- C2 (amended): a payload whose first 4 bytes decode to
LONG_PRESS_START flips the recording state, except when the rapid
duplicate filter suppresses it — same state as the previous
notification, less than 0.1 seconds after it — in which case the
handler is returned completely unchanged. -/
theorem start_toggle_policy (h : ButtonHandler) (t : ℚ) (data : List Nat)
    (hl : 4 ≤ data.length) (hv : decodeLE4 data = 3) :
    (h.rapid_duplicate t ButtonState.LONG_PRESS_START = true →
        h.process_button_data t data
          = (h, [], some ButtonState.LONG_PRESS_START))
    ∧ (h.rapid_duplicate t ButtonState.LONG_PRESS_START = false →
        (h.process_button_data t data).1.recording_state
            = h.recording_state.flip
        ∧ (h.process_button_data t data).1.toggle_count
            = h.toggle_count
              + (if h.recording_state = RecordingState.IDLE
                 then 1 else 0)) := by
  have hl4 : ¬ data.length < 4 := by omega
  have hv' : ButtonState.ofValue (decodeLE4 data)
      = some ButtonState.LONG_PRESS_START := by
    simp [ButtonState.ofValue, hv]
  constructor
  · intro hd
    exact process_eq_dup h t data ButtonState.LONG_PRESS_START hl4 hv' hd
  · intro hd
    rw [process_eq_accepted h t data ButtonState.LONG_PRESS_START hl4 hv' hd]
    simp only [ButtonHandler.apply_event]
    exact ⟨by rw [toggle_recording_state], by rw [toggle_recording_count]⟩

/-- Witness for C2: a fresh handler processing the payload 3,0,0,0 at
time 0 flips from Idle to Recording. -/
theorem start_toggle_policy_witness :
    ((ButtonHandler.init true true true true).process_button_data 0
        [3, 0, 0, 0]).1.recording_state
      = (ButtonHandler.init true true true true).recording_state.flip :=
  ((start_toggle_policy (ButtonHandler.init true true true true) 0
      [3, 0, 0, 0] (by norm_num) rfl).2 rfl).1

/-- C4 counterexample: the second of two identical Idle payloads 0.05
seconds apart decodes to a recognized state and the observer callback is
registered, yet process emits no events at all — the raw-event observer
does not fire on a suppressed rapid duplicate. -/
theorem observer_cex :
    ButtonState.ofValue (decodeLE4 [0, 0, 0, 0]) = some ButtonState.IDLE
    ∧ ((ButtonHandler.init true true true true).process_button_data 0
        [0, 0, 0, 0]).1.has_on_button_event = true
    ∧ (((ButtonHandler.init true true true true).process_button_data 0
        [0, 0, 0, 0]).1.process_button_data (1 / 20) [0, 0, 0, 0]).2.1
        = [] := by
  have e1 : ((ButtonHandler.init true true true true).process_button_data 0
      [0, 0, 0, 0]).1.last_button_state = some ButtonState.IDLE := rfl
  have e2 : ((ButtonHandler.init true true true true).process_button_data 0
      [0, 0, 0, 0]).1.last_button_time = some (0 : ℚ) := rfl
  have hd : ((ButtonHandler.init true true true true).process_button_data 0
      [0, 0, 0, 0]).1.rapid_duplicate (1 / 20) ButtonState.IDLE = true := by
    simp only [ButtonHandler.rapid_duplicate, e1, e2, Bool.and_eq_true,
      decide_eq_true_eq]
    norm_num
  refine ⟨rfl, rfl, ?_⟩
  rw [process_eq_dup _ (1 / 20) [0, 0, 0, 0] ButtonState.IDLE
    (by norm_num) rfl hd]

/-- C4 (amended): for every payload decoding to a recognized state, with
the observer callback registered, the observer fires with that state
whenever the notification is not suppressed as a rapid duplicate; a
suppressed duplicate emits no events at all. -/
theorem observer_policy (h : ButtonHandler) (t : ℚ) (data : List Nat)
    (bs : ButtonState) (hl : 4 ≤ data.length)
    (hv : ButtonState.ofValue (decodeLE4 data) = some bs)
    (hcb : h.has_on_button_event = true) :
    (h.rapid_duplicate t bs = false →
        Event.onButtonEvent bs ∈ (h.process_button_data t data).2.1)
    ∧ (h.rapid_duplicate t bs = true →
        (h.process_button_data t data).2.1 = []) := by
  have hl4 : ¬ data.length < 4 := by omega
  constructor
  · intro hd
    rw [process_eq_accepted h t data bs hl4 hv hd]
    cases bs
    case IDLE => simp [ButtonHandler.apply_event, ButtonHandler.observer_evs, hcb]
    case LONG_PRESS_START =>
      simp [ButtonHandler.apply_event, ButtonHandler.observer_evs, hcb]
    case LONG_PRESS_RELEASE =>
      simp only [ButtonHandler.apply_event]
      split
      · simp [ButtonHandler.observer_evs, hcb]
      · simp [ButtonHandler.observer_evs, hcb]
  · intro hd
    rw [process_eq_dup h t data bs hl4 hv hd]

/-- Witness for C4: a fresh handler processing an Idle payload fires the
observer with Idle. -/
theorem observer_policy_witness :
    Event.onButtonEvent ButtonState.IDLE ∈
      ((ButtonHandler.init true true true true).process_button_data 0
        [0, 0, 0, 0]).2.1 :=
  (observer_policy (ButtonHandler.init true true true true) 0 [0, 0, 0, 0]
    ButtonState.IDLE (by norm_num) rfl rfl).1 rfl

/-- C1 counterexample: with the firmware-bug fallback at its default
(enabled) and no prior LONG_PRESS_START, a payload decoding to
LONG_PRESS_RELEASE toggles the fresh handler to Recording and invokes
on_recording_start — the claim says release never mutates state or
invokes either recording callback. -/
theorem button_release_cex :
    ((ButtonHandler.init true true true true).process_button_data 0
        [5, 0, 0, 0]).1.recording_state = RecordingState.RECORDING
    ∧ Event.recordingStart ∈
        ((ButtonHandler.init true true true true).process_button_data 0
          [5, 0, 0, 0]).2.1 := by
  constructor
  · decide
  · decide

/-- C1 (amended): a LONG_PRESS_RELEASE payload leaves RecordingState
unchanged and invokes neither recording callback, unless the fallback is
enabled and applies — no start ever seen, or the release more than 3
seconds after the last start — in which case it toggles the state; a
rapid-duplicate release changes nothing, and unrecognized state values
never mutate the handler. -/
theorem button_release_policy (h : ButtonHandler) (t : ℚ) (data : List Nat)
    (hl : 4 ≤ data.length) :
    (decodeLE4 data = 5 →
        (h.rapid_duplicate t ButtonState.LONG_PRESS_RELEASE = true →
            h.process_button_data t data
              = (h, [], some ButtonState.LONG_PRESS_RELEASE))
        ∧ (h.rapid_duplicate t ButtonState.LONG_PRESS_RELEASE = false →
            (h.release_fallback_fires t = false →
                (h.process_button_data t data).1.recording_state
                    = h.recording_state
                ∧ Event.recordingStart ∉ (h.process_button_data t data).2.1
                ∧ Event.recordingStop ∉ (h.process_button_data t data).2.1)
            ∧ (h.release_fallback_fires t = true →
                (h.process_button_data t data).1.recording_state
                    = h.recording_state.flip)))
    ∧ (ButtonState.ofValue (decodeLE4 data) = none →
        (h.process_button_data t data).1 = h) := by
  have hl4 : ¬ data.length < 4 := by omega
  constructor
  · intro hv5
    have hv : ButtonState.ofValue (decodeLE4 data)
        = some ButtonState.LONG_PRESS_RELEASE := by
      simp [ButtonState.ofValue, hv5]
    refine ⟨fun hd => process_eq_dup h t data _ hl4 hv hd, fun hd => ?_⟩
    rw [process_eq_accepted h t data _ hl4 hv hd]
    simp only [ButtonHandler.apply_event]
    have hbridge :
        (({ h with
              last_button_state := some ButtonState.LONG_PRESS_RELEASE,
              last_button_time := some t } : ButtonHandler).fallback_enabled
          && ButtonHandler.should_trigger_fallback_toggle
               { { h with
                     last_button_state :=
                       some ButtonState.LONG_PRESS_RELEASE,
                     last_button_time := some t } with
                 last_release_time := some t })
          = h.release_fallback_fires t := rfl
    rw [hbridge]
    refine ⟨fun hff => ?_, fun hff => ?_⟩
    · rw [hff]
      refine ⟨rfl, ?_, ?_⟩ <;>
        cases hE : h.has_on_button_event <;>
          simp [ButtonHandler.observer_evs, hE]
    · rw [hff]
      simp only [if_true]
      rw [toggle_recording_state]
  · intro hvn
    rw [process_eq_unrecognized h t data hl4 hvn]

/-- Witness for C1: with the fallback disabled, a release payload leaves
the state unchanged and emits no recording callbacks. -/
theorem button_release_policy_witness :
    (({ ButtonHandler.init true true true true with
          fallback_enabled := false } :
        ButtonHandler).process_button_data 0
        [5, 0, 0, 0]).1.recording_state
      = ({ ButtonHandler.init true true true true with
             fallback_enabled := false } : ButtonHandler).recording_state
    ∧ Event.recordingStart ∉
        (({ ButtonHandler.init true true true true with
              fallback_enabled := false } :
            ButtonHandler).process_button_data 0 [5, 0, 0, 0]).2.1
    ∧ Event.recordingStop ∉
        (({ ButtonHandler.init true true true true with
              fallback_enabled := false } :
            ButtonHandler).process_button_data 0 [5, 0, 0, 0]).2.1 :=
  (((button_release_policy
      ({ ButtonHandler.init true true true true with
           fallback_enabled := false }) 0 [5, 0, 0, 0]
      (by norm_num)).1 rfl).2 rfl).1 rfl
